import Mathlib

/-!
Shallow embedding of the OptySys backend's organization store
(backend/app/database/organizations.py) and authorization middleware
(backend/app/utils/middlewares.py).

The document store is modelled as association lists keyed by document id
(`_id` is the primary key, so at most one entry per key is ever present in
the collections the code builds).  A MongoDB session transaction
(`async with session.start_transaction()`) commits the body's writes on
normal exit and rolls every write back when the body raises; this contract
of the store client is modelled by `runTransaction`.
-/

namespace OptySys

/-- An HTTPException as raised by the store operations: a status code and a
detail message. -/
structure HTTPException where
  status_code : Nat
  detail : String
  deriving Repr, DecidableEq

/-- Result of a store operation: the returned value, or the HTTPException the
operation raised. -/
inductive OpResult (α : Type) where
  | ok (val : α)
  | fail (err : HTTPException)
  deriving Repr, DecidableEq

def OpResult.isOk {α : Type} : OpResult α → Bool
  | OpResult.ok _ => true
  | OpResult.fail _ => false

/-- An Organization document.  `priv` is the source's `private` field
(a Lean keyword). -/
structure OrgRec where
  name : String
  created_by : String
  admins : List String
  members : List String
  opportunities : List String
  priv : Bool
  deriving Repr, DecidableEq

/-- An Opportunity document (the payload fields are irrelevant to the
properties below). -/
structure OppRec where
  organization_id : String
  created_by : String
  deriving Repr, DecidableEq

/-- The document store: the Organizations collection, the Users collection
(of which only the `organizations` array of each user document matters
here), and the Opportunities collection. -/
structure DB where
  orgs : List (String × OrgRec)
  users : List (String × List String)
  opps : List (String × OppRec)
  deriving Repr, DecidableEq

/-- find_one by `_id`. -/
def assocFind {α : Type} (l : List (String × α)) (k : String) : Option α :=
  (l.find? (fun p => p.1 == k)).map (fun p => p.2)

/-- update of the document with `_id = k` (at most one matches: `_id` is the
primary key). -/
def assocUpdate {α : Type} (l : List (String × α)) (k : String) (g : α → α) :
    List (String × α) :=
  l.map (fun p => if p.1 == k then (p.1, g p.2) else p)

def findOrg (db : DB) (org_id : String) : Option OrgRec :=
  assocFind db.orgs org_id

def findUser (db : DB) (user_id : String) : Option (List String) :=
  assocFind db.users user_id

/-- Modelled from the spec: `validate_object_id_fields`
(backend/app/utils/validators.py is not among the given sources) raises a
ValidationFailure on a malformed id (spec section 7).  A BSON ObjectId is a
24-character lowercase hex string; this is the boolean validity test, and
the operations raise `validationError` when it is false. -/
def isValidObjectId (s : String) : Bool :=
  s.length == 24 && s.toList.all (fun c => c.isDigit || (c ≥ 'a' && c ≤ 'f'))

def validationError : HTTPException :=
  { status_code := 400, detail := "Error: Invalid ObjectId." }

/-- `insert_one` into the Organizations collection.  The collection carries a
unique index on `name` (the source maps its DuplicateKeyError to
"Organization already exists with this name"), besides the primary key
`_id`; `none` is the DuplicateKeyError case. -/
def insertOrg (db : DB) (new_id : String) (org : OrgRec) : Option DB :=
  if db.orgs.any (fun p => p.1 == new_id || p.2.name == org.name) then none
  else some { db with orgs := db.orgs ++ [(new_id, org)] }

/-- `update_one({_id: user_id}, {$push: {organizations: oid}})` on Users:
the new database and the reported `modified_count` ($push always modifies a
matched document). -/
def pushUserOrg (db : DB) (user_id oid : String) : DB × Nat :=
  if (findUser db user_id).isSome then
    ({ db with users := assocUpdate db.users user_id (fun l => l ++ [oid]) }, 1)
  else (db, 0)

/-- `update_one({_id: org_id}, {$push: {members: user_id}})` on
Organizations. -/
def pushOrgMember (db : DB) (org_id user_id : String) : DB × Nat :=
  if (findOrg db org_id).isSome then
    ({ db with orgs := (assocUpdate db.orgs org_id
        (fun o => { o with members := o.members ++ [user_id] })) }, 1)
  else (db, 0)

/-- `update_one({_id: org_id}, {$push: {opportunities: oid}})` on
Organizations. -/
def pushOrgOpportunity (db : DB) (org_id oid : String) : DB × Nat :=
  if (findOrg db org_id).isSome then
    ({ db with orgs := (assocUpdate db.orgs org_id
        (fun o => { o with opportunities := o.opportunities ++ [oid] })) }, 1)
  else (db, 0)

/-- `update_many({_id: {$in: members}}, {$pull: {organizations: oid}})` on
Users: every matched document loses `oid` from its `organizations` array,
and `modified_count` counts the matched documents that actually changed
(those whose array contained `oid`). -/
def pullUserOrgs (db : DB) (members : List String) (oid : String) : DB × Nat :=
  ({ db with users := db.users.map (fun p =>
      if members.contains p.1 then (p.1, p.2.filter (fun x => x ≠ oid)) else p) },
   db.users.countP (fun p => members.contains p.1 && p.2.contains oid))

/-- `delete_one({_id: org_id})` on Organizations, with `deleted_count`. -/
def deleteOrg (db : DB) (org_id : String) : DB × Nat :=
  if (findOrg db org_id).isSome then
    ({ db with orgs := db.orgs.filter (fun p => p.1 != org_id) }, 1)
  else (db, 0)

/-- `insert_one` into the Opportunities collection (`new_id` is the
store-generated fresh `_id`). -/
def insertOpp (db : DB) (new_id : String) (opp : OppRec) : DB :=
  { db with opps := db.opps ++ [(new_id, opp)] }

/-- The store client's transaction contract (`async with
session.start_transaction()`): the body's writes commit on normal exit; when
the body raises, every write of the body is rolled back and the exception
propagates. -/
def runTransaction {α : Type} (db : DB)
    (body : DB → OpResult (α × DB)) : OpResult α × DB :=
  match body db with
  | OpResult.ok (a, db2) => (OpResult.ok a, db2)
  | OpResult.fail e => (OpResult.fail e, db)

/-- What a store operation leaves behind: its returned value or raised
exception, the database after commit or rollback, and whether the
transactional session it acquired is still open when the operation is over
(true exactly when the source has no finally clause calling
`session.end_session()`). -/
structure Outcome (α : Type) where
  result : OpResult α
  db : DB
  sessionLeaked : Bool
  deriving Repr, DecidableEq

def mkOutcome {α : Type} (t : OpResult α × DB) (leaked : Bool) : Outcome α :=
  { result := t.1, db := t.2, sessionLeaked := leaked }

/-- The organization document create_organization builds before inserting:
the payload plus `created_by = current_user`, with `admins` and `members`
overwritten to the singleton `[current_user]`. -/
def newOrgRec (current_user orgName : String) (orgPrivate : Bool) : OrgRec :=
  { name := orgName, created_by := current_user,
    admins := [current_user], members := [current_user],
    opportunities := [], priv := orgPrivate }

/-- `Organizations.create_organization`: inside one transaction, insert the
new organization (admins and members overwritten to `[current_user]`,
`created_by = current_user`), then push the new id onto the owner's
`organizations`; a zero `modified_count` on that push raises 400
"Unable to update user", a duplicate name raises 400 "already exists".
The source's try block ends with a finally that ends the session. -/
def create_organization (db : DB) (current_user : String)
    (orgName : String) (orgPrivate : Bool) (new_id : String) : Outcome OrgRec :=
  if !isValidObjectId current_user then
    { result := OpResult.fail validationError, db := db, sessionLeaked := false }
  else
    mkOutcome (runTransaction db (fun d =>
      match insertOrg d new_id (newOrgRec current_user orgName orgPrivate) with
      | none => OpResult.fail
          { status_code := 400,
            detail := "Error: Organization already exists with this name." }
      | some d1 =>
        if (pushUserOrg d1 current_user new_id).2 == 0 then OpResult.fail
            { status_code := 400, detail := "Error: Unable to update user" }
        else OpResult.ok (newOrgRec current_user orgName orgPrivate,
          (pushUserOrg d1 current_user new_id).1))) false

/-- `Organizations.create_opportunity`: inside one transaction, insert the
opportunity, then push its id onto the organization's `opportunities`; a
zero `modified_count` raises 400 "Unable to update organization".  The
fire-and-forget recommender task is outside the store's state.  The source's
try block ends with a finally that ends the session. -/
def create_opportunity (db : DB) (current_user org_id new_id : String) :
    Outcome Unit :=
  if !(isValidObjectId current_user && isValidObjectId org_id) then
    { result := OpResult.fail validationError, db := db, sessionLeaked := false }
  else
    mkOutcome (runTransaction db (fun d =>
      if (pushOrgOpportunity
            (insertOpp d new_id { organization_id := org_id, created_by := current_user })
            org_id new_id).2 == 0 then OpResult.fail
          { status_code := 400, detail := "Error: Unable to update organization" }
      else OpResult.ok ((),
        (pushOrgOpportunity
          (insertOpp d new_id { organization_id := org_id, created_by := current_user })
          org_id new_id).1))) false

/-- `Organizations.is_authorized_user`: a single
`find_one({_id: org_id, admins: user_id})`; a miss (organization absent, or
present without `user_id` among its admins) raises 401 "Unauthorized user".
No transaction is involved, so no state changes. -/
def is_authorized_user (db : DB) (org_id user_id : String) : OpResult Unit :=
  if !(isValidObjectId org_id && isValidObjectId user_id) then
    OpResult.fail validationError
  else
    match db.orgs.find? (fun p => p.1 == org_id && p.2.admins.contains user_id) with
    | some _ => OpResult.ok ()
    | none => OpResult.fail
        { status_code := 401, detail := "Error: Unauthorized user." }

/-- `Organizations.add_member`: inside one transaction, look the organization
up (404 when absent), reject an existing member (400), reject a private
organization (401), then push the member onto the organization and the
organization onto the user's `organizations`, raising 400 on a zero
`modified_count` of either push.  The source's try block ends with a finally
that ends the session. -/
def add_member (db : DB) (current_user org_id : String) : Outcome Unit :=
  if !(isValidObjectId org_id && isValidObjectId current_user) then
    { result := OpResult.fail validationError, db := db, sessionLeaked := false }
  else
    mkOutcome (runTransaction db (fun d =>
      match findOrg d org_id with
      | none => OpResult.fail
          { status_code := 404, detail := "Error: Organization not found." }
      | some org =>
        if org.members.contains current_user then OpResult.fail
            { status_code := 400,
              detail := "Error: User is already a member of the organization." }
        else if org.priv then OpResult.fail
            { status_code := 401, detail := "Error: Organization is private." }
        else if (pushOrgMember d org_id current_user).2 == 0 then OpResult.fail
            { status_code := 400, detail := "Error: Unable to update user" }
        else if (pushUserOrg (pushOrgMember d org_id current_user).1
            current_user org_id).2 == 0 then OpResult.fail
            { status_code := 400, detail := "Error: Unable to update user." }
        else OpResult.ok ((),
          (pushUserOrg (pushOrgMember d org_id current_user).1
            current_user org_id).1))) false

/-- `Organizations.delete_organization`: inside one transaction, look the
organization up (401 "Organization not found." when absent), reject a caller
other than `created_by` (401 "Unauthorized user."), delete the organization
document, then pull the organization id from every former member's
`organizations`, raising 400 "Unable to update user." when that cleanup's
`modified_count` is zero.  Unlike the other three operations, the source's
try block has NO finally clause: `session.end_session()` is never reached on
any exit path, so the acquired session stays open. -/
def delete_organization (db : DB) (current_user org_id : String) : Outcome Unit :=
  if !(isValidObjectId org_id && isValidObjectId current_user) then
    { result := OpResult.fail validationError, db := db, sessionLeaked := false }
  else
    mkOutcome (runTransaction db (fun d =>
      match findOrg d org_id with
      | none => OpResult.fail
          { status_code := 401, detail := "Error: Organization not found." }
      | some org =>
        if current_user != org.created_by then OpResult.fail
            { status_code := 401, detail := "Error: Unauthorized user." }
        else if (deleteOrg d org_id).2 == 0 then OpResult.fail
            { status_code := 400, detail := "Error: Unable to delete organization." }
        else if (pullUserOrgs (deleteOrg d org_id).1 org.members org_id).2 == 0 then
          OpResult.fail
            { status_code := 400, detail := "Error: Unable to update user." }
        else OpResult.ok ((),
          (pullUserOrgs (deleteOrg d org_id).1 org.members org_id).1))) true

/-! ## Authorization middleware (backend/app/utils/middlewares.py) -/

/-- Python `s.split(sep)` for a one-character separator, on the character
list: splits at every occurrence of the separator and keeps empty pieces. -/
def splitOnChar (c : Char) : List Char → List (List Char)
  | [] => [[]]
  | x :: xs =>
    if x = c then [] :: splitOnChar c xs
    else
      match splitOnChar c xs with
      | [] => [[x]]
      | y :: ys => (x :: y) :: ys

/-- Python `s.split(sep)` (String.splitOn does not reduce in the kernel). -/
def pySplit (c : Char) (s : String) : List String :=
  (splitOnChar c s.toList).map (fun l => String.mk l)

/-- Python `s.startswith(pre)`. -/
def pyStartsWith (s pre : String) : Bool :=
  s.toList.take pre.toList.length == pre.toList

/-- Python `s.endswith(suf)`. -/
def pyEndsWith (s suf : String) : Bool :=
  s.toList.drop (s.toList.length - suf.toList.length) == suf.toList

/-- The middleware's UNAUTHORIZED_ENDPOINTS allow-list, as (path, method). -/
def UNAUTHORIZED_ENDPOINTS : List (String × String) :=
  [("/docs", "GET"), ("/openapi.json", "GET"), ("/analytics/health", "GET"),
   ("/auth/register", "POST"), ("/auth/verify", "POST"), ("/auth/login", "POST"),
   ("/users", "POST")]

def is_unauthorized_endpoint (request_path request_method : String) : Bool :=
  UNAUTHORIZED_ENDPOINTS.contains (request_path, request_method)

/-- A resource-level authorization delegation `check_authorization` performs:
the activated-user check (the external User collaborator's
`Users().is_authorized_user(current_user)`) or the organization-admin check
(`Organizations().is_authorized_user(organization_id, current_user)`). -/
inductive ResourceCheck where
  | activatedUser
  | orgAdmin (organization_id : String)
  deriving Repr, DecidableEq

/-- Outcome of the middleware: pass, or the message of the raised
Exception. -/
inductive AuthResult where
  | passed
  | denied (msg : String)
  deriving Repr, DecidableEq

/-- `check_authorization(current_user, request_path, request_method)`.
`activated` is the verdict of the external User collaborator's
`is_authorized_user` (backend/app/database/users.py is not among the given
sources).  Besides the pass/raise outcome, the returned list records which
resource-level delegations were performed, in order.  The source reads
`request_path.split("/")[2]` for the organization id; whenever its guard
(POST, path starts with "/organizations" and ends with "/opportunities")
holds, the path contains at least two slashes, so index 2 exists. -/
def check_authorization (db : DB) (activated : Bool)
    (current_user : Option String) (request_path request_method : String) :
    AuthResult × List ResourceCheck :=
  if is_unauthorized_endpoint request_path request_method then
    (AuthResult.passed, [])
  else
    match current_user with
    | none => (AuthResult.denied "Please login to access this resource.", [])
    | some cu =>
      if (request_method == "POST" && request_path == "/organizations") ||
          (request_path == "/ws" && request_method == "GET") then
        if activated then
          afterActivated db cu request_path request_method [ResourceCheck.activatedUser]
        else
          (AuthResult.denied
            "User is not authorized to access this resource, please activate your account.",
           [ResourceCheck.activatedUser])
      else
        afterActivated db cu request_path request_method []
where
  /-- the second `if` of the source: the organization-admin delegation. -/
  afterActivated (db : DB) (cu : String) (request_path request_method : String)
      (done : List ResourceCheck) : AuthResult × List ResourceCheck :=
    if request_method == "POST" &&
        (pyStartsWith request_path "/organizations" &&
         pyEndsWith request_path "/opportunities") then
      let organization_id := (pySplit '/' request_path).getD 2 ""
      if (is_authorized_user db organization_id cu).isOk then
        (AuthResult.passed, done ++ [ResourceCheck.orgAdmin organization_id])
      else
        (AuthResult.denied "User is not authorized to access this resource.",
         done ++ [ResourceCheck.orgAdmin organization_id])
    else (AuthResult.passed, done)

/-- The route shape the spec's words describe for the organization-admin
check: POST requests whose path is exactly "/organizations/" ++ id ++
"/opportunities" for some nonempty id segment. -/
def specOpportunityShape (request_path request_method : String) : Bool :=
  request_method == "POST" &&
    match pySplit '/' request_path with
    | ["", "organizations", id0, "opportunities"] => id0 != ""
    | _ => false

/-- `authentication_handler`'s verdict: an authenticated user id, or the
message of the raised Exception. -/
inductive TokenAuth where
  | authed (user : String)
  | denied (msg : String)
  deriving Repr, DecidableEq

def pleaseLogin : String := "Please login to access this resource."

/-- `authentication_handler(access_token)`.  `decode` is the external
JwtTokenHandler's decode of the bearer part: `none` when decoding raises (or
the decoded payload lacks "user_id"), `some none` when the payload's
"user_id" is None, `some (some uid)` otherwise.  Missing bearer part
(`access_token.split(" ")[1]` raising IndexError), decode failure, a None
user id and a malformed user id are all caught by the handler's blanket
`except`, which re-raises the one uniform message `pleaseLogin`. -/
def authentication_handler (decode : String → Option (Option String))
    (access_token : String) : TokenAuth :=
  if (pySplit ' ' access_token).length < 2 then TokenAuth.denied pleaseLogin
  else
    match decode ((pySplit ' ' access_token).getD 1 "") with
    | none => TokenAuth.denied pleaseLogin
    | some none => TokenAuth.denied pleaseLogin
    | some (some cu) =>
      if isValidObjectId cu then TokenAuth.authed cu
      else TokenAuth.denied pleaseLogin

/-! ## Concrete fixtures -/

def uA : String := "aaaaaaaaaaaaaaaaaaaaaaaa"
def uB : String := "bbbbbbbbbbbbbbbbbbbbbbbb"
def oA : String := "cccccccccccccccccccccccc"
def nId : String := "dddddddddddddddddddddddd"
def pId : String := "eeeeeeeeeeeeeeeeeeeeeeee"

def orgA : OrgRec :=
  { name := "Acme", created_by := uA, admins := [uA], members := [uA],
    opportunities := [], priv := false }

def dbEx : DB :=
  { orgs := [(oA, orgA)], users := [(uA, [oA]), (uB, [])], opps := [] }

/-- A database where the sole member's user document does not list the
organization, so delete_organization's membership cleanup modifies zero
records. -/
def dbC1 : DB :=
  { orgs := [(oA, orgA)], users := [(uA, [])], opps := [] }

/-! ## Association-list lemmas -/

theorem assocFind_update_self {α : Type} (l : List (String × α)) (k : String)
    (g : α → α) : assocFind (assocUpdate l k g) k = (assocFind l k).map g := by
  induction l with
  | nil => rfl
  | cons hd tl ih =>
    cases hb : (hd.1 == k) with
    | true =>
      simp only [assocFind, assocUpdate, List.map_cons]
      rw [if_pos hb]
      rw [List.find?_cons, List.find?_cons]
      simp [hb]
    | false =>
      simp only [assocFind, assocUpdate, List.map_cons] at ih ⊢
      rw [if_neg (by simp [hb])]
      rw [List.find?_cons, List.find?_cons]
      simp only [hb]
      exact ih

theorem assocFind_eq_none {α : Type} (l : List (String × α)) (k : String)
    (h : ∀ p ∈ l, (p.1 == k) = false) : assocFind l k = none := by
  have : l.find? (fun p => p.1 == k) = none := by
    rw [List.find?_eq_none]
    intro p hp hk
    rw [h p hp] at hk
    exact Bool.false_ne_true hk
  simp [assocFind, this]

theorem assocFind_append_single {α : Type} (l : List (String × α)) (k : String)
    (v : α) (h : ∀ p ∈ l, (p.1 == k) = false) :
    assocFind (l ++ [(k, v)]) k = some v := by
  have hnone : l.find? (fun p => p.1 == k) = none := by
    rw [List.find?_eq_none]
    intro p hp hk
    rw [h p hp] at hk
    exact Bool.false_ne_true hk
  simp [assocFind, List.find?_append, hnone]

/-! ## C10: exempt endpoints need no token -/

/-- C10: for every (path, method) pair in the UNAUTHORIZED_ENDPOINTS
allow-list (POST /users included), check_authorization passes even with no
authenticated user: the exemption test precedes the missing-user test. -/
theorem check_authorization_exempt_skips_login (db : DB) (activated : Bool)
    (request_path request_method : String)
    (h : is_unauthorized_endpoint request_path request_method = true) :
    check_authorization db activated none request_path request_method =
      (AuthResult.passed, []) ∧
    is_unauthorized_endpoint "/users" "POST" = true := by
  constructor
  · simp [check_authorization, h]
  · decide

theorem check_authorization_exempt_skips_login_witness :
    is_unauthorized_endpoint "/users" "POST" = true ∧
    check_authorization dbEx false none "/users" "POST" =
      (AuthResult.passed, []) := by
  have h := check_authorization_exempt_skips_login dbEx false "/users" "POST"
    (by decide)
  exact ⟨h.2, h.1⟩

/-! ## C8: authentication failures are uniform -/

theorem authentication_handler_denied_msg
    (decode : String → Option (Option String)) (t m : String)
    (h : authentication_handler decode t = TokenAuth.denied m) :
    m = pleaseLogin := by
  unfold authentication_handler at h
  split at h
  · cases h; rfl
  · split at h
    · cases h; rfl
    · cases h; rfl
    · split at h
      · exact absurd h (by simp)
      · cases h; rfl

/-- C8: whenever authentication_handler rejects an access token, no matter
how the token is invalid (no bearer part, undecodable, missing or malformed
user id), the surfaced message is the one uniform "please login" string;
in particular two rejected tokens get identical rejections. -/
theorem authentication_handler_uniform_rejection
    (decode : String → Option (Option String)) (t1 t2 m1 m2 : String)
    (h1 : authentication_handler decode t1 = TokenAuth.denied m1)
    (h2 : authentication_handler decode t2 = TokenAuth.denied m2) :
    m1 = pleaseLogin ∧ m2 = pleaseLogin ∧ m1 = m2 := by
  have e1 := authentication_handler_denied_msg decode t1 m1 h1
  have e2 := authentication_handler_denied_msg decode t2 m2 h2
  exact ⟨e1, e2, e1.trans e2.symm⟩

theorem authentication_handler_uniform_rejection_witness :
    authentication_handler (fun _ => none) "Bearer xyz" =
      TokenAuth.denied pleaseLogin ∧
    authentication_handler (fun _ => none) "garbage" =
      TokenAuth.denied pleaseLogin ∧
    pleaseLogin = pleaseLogin ∧ pleaseLogin = pleaseLogin ∧
      pleaseLogin = pleaseLogin := by
  refine ⟨by decide, by decide, ?_⟩
  exact authentication_handler_uniform_rejection (fun _ => none)
    "Bearer xyz" "garbage" pleaseLogin pleaseLogin (by decide) (by decide)

/-! ## C9: session release -/

/-- C9 (refuting the claim on the code): delete_organization's try block has
no finally clause, so the transactional session it acquires is never
released — on the successful path, on the not-the-creator failure path and
on the cleanup failure path alike — while create_organization,
create_opportunity and add_member all release theirs. -/
theorem delete_organization_leaks_session :
    (delete_organization dbEx uA oA).sessionLeaked = true ∧
    (delete_organization dbEx uB oA).sessionLeaked = true ∧
    (delete_organization dbC1 uA oA).sessionLeaked = true ∧
    (create_organization dbEx uB "Beta" false nId).sessionLeaked = false ∧
    (create_opportunity dbEx uA oA pId).sessionLeaked = false ∧
    (add_member dbEx uB oA).sessionLeaked = false := by decide

/-! ## C6: only the creator can delete -/

/-- C6: delete_organization succeeds only when the requester is the
organization's created_by; any other caller (an admin included) gets the 401
"Unauthorized user." failure and the organization is untouched. -/
theorem delete_organization_creator_only
    (db : DB) (u o : String) (org : OrgRec)
    (hvu : isValidObjectId u = true) (hvo : isValidObjectId o = true)
    (hfind : findOrg db o = some org) :
    ((delete_organization db u o).result.isOk = true → u = org.created_by) ∧
    (u ≠ org.created_by →
      (delete_organization db u o).result =
        OpResult.fail { status_code := 401, detail := "Error: Unauthorized user." } ∧
      (delete_organization db u o).db = db ∧
      findOrg (delete_organization db u o).db o = some org) := by
  have hrej : u ≠ org.created_by →
      delete_organization db u o =
        { result := OpResult.fail
            { status_code := 401, detail := "Error: Unauthorized user." },
          db := db, sessionLeaked := true } := by
    intro hne
    have hb : (u != org.created_by) = true := by simp [hne]
    simp [delete_organization, hvu, hvo, runTransaction, mkOutcome, hfind, hb]
  constructor
  · intro hok
    by_contra hne
    rw [hrej hne] at hok
    simp [OpResult.isOk] at hok
  · intro hne
    rw [hrej hne]
    exact ⟨rfl, rfl, hfind⟩

theorem delete_organization_creator_only_witness :
    findOrg dbEx oA = some orgA ∧ uB ≠ orgA.created_by ∧
    (delete_organization dbEx uB oA).result =
      OpResult.fail { status_code := 401, detail := "Error: Unauthorized user." } ∧
    (delete_organization dbEx uB oA).db = dbEx := by
  have h := delete_organization_creator_only dbEx uB oA orgA
    (by decide) (by decide) (by decide)
  have h2 := h.2 (by decide)
  exact ⟨by decide, by decide, h2.1, h2.2.1⟩

/-! ## C1: cleanup failure aborts the deletion -/

/-- C1: inside delete_organization both the delete and the membership
cleanup run in one transaction; when the cleanup's update_many modifies zero
user records (here: no member's user document lists the organization), the
raised 400 failure aborts the transaction, so the organization document
still exists afterwards. -/
theorem delete_organization_cleanup_abort
    (db : DB) (u o : String) (org : OrgRec)
    (hvu : isValidObjectId u = true) (hvo : isValidObjectId o = true)
    (hfind : findOrg db o = some org)
    (_hmem : org.members ≠ [])
    (hu : u = org.created_by)
    (hclean : db.users.countP
        (fun p => org.members.contains p.1 && p.2.contains o) = 0) :
    (delete_organization db u o).result =
      OpResult.fail { status_code := 400, detail := "Error: Unable to update user." } ∧
    (delete_organization db u o).db = db ∧
    findOrg (delete_organization db u o).db o = some org := by
  have hb : (u != org.created_by) = false := by simp [hu]
  have hres : delete_organization db u o =
      { result := OpResult.fail
          { status_code := 400, detail := "Error: Unable to update user." },
        db := db, sessionLeaked := true } := by
    simp only [delete_organization, hvu, hvo, Bool.and_self, Bool.not_true,
      Bool.false_eq_true, if_false]
    simp only [runTransaction, mkOutcome, hfind, hb]
    have hd2 : (deleteOrg db o).2 = 1 := by simp [deleteOrg, hfind]
    have hdu : (deleteOrg db o).1.users = db.users := by simp [deleteOrg, hfind]
    have hp2 : (pullUserOrgs (deleteOrg db o).1 org.members o).2 = 0 := by
      have hdef : (pullUserOrgs (deleteOrg db o).1 org.members o).2
          = (deleteOrg db o).1.users.countP
            (fun p => org.members.contains p.1 && p.2.contains o) := rfl
      rw [hdef, hdu]
      exact hclean
    simp [hd2, hp2]
  rw [hres]
  exact ⟨rfl, rfl, hfind⟩

theorem delete_organization_cleanup_abort_witness :
    findOrg dbC1 oA = some orgA ∧ orgA.members ≠ [] ∧
    (delete_organization dbC1 uA oA).result =
      OpResult.fail { status_code := 400, detail := "Error: Unable to update user." } ∧
    (delete_organization dbC1 uA oA).db = dbC1 := by
  have h := delete_organization_cleanup_abort dbC1 uA oA orgA
    (by decide) (by decide) (by decide) (by decide) (by decide) (by decide)
  exact ⟨by decide, by decide, h.1, h.2.1⟩

/-! ## C5: create_organization abort paths -/

/-- C5: in create_organization, a push of the new id onto the owner's
organizations that modifies zero records (here: the owner's user document is
absent) aborts the whole transaction — the inserted organization is rolled
back — with the generic 400 failure; and a name collision fails with the
"already exists" conflict failure with no partial write, the owner's
organizations being unchanged. -/
theorem create_organization_abort_paths
    (db : DB) (owner orgName new_id : String) (priv0 : Bool)
    (hv : isValidObjectId owner = true) :
    (db.orgs.any (fun p => p.1 == new_id || p.2.name == orgName) = false →
      findUser db owner = none →
      (create_organization db owner orgName priv0 new_id).result =
        OpResult.fail { status_code := 400, detail := "Error: Unable to update user" } ∧
      (create_organization db owner orgName priv0 new_id).db = db ∧
      findOrg (create_organization db owner orgName priv0 new_id).db new_id = none) ∧
    (db.orgs.any (fun p => p.2.name == orgName) = true →
      (create_organization db owner orgName priv0 new_id).result =
        OpResult.fail { status_code := 400, detail := "Error: Organization already exists with this name." } ∧
      (create_organization db owner orgName priv0 new_id).db = db ∧
      findUser (create_organization db owner orgName priv0 new_id).db owner =
        findUser db owner) := by
  constructor
  · intro hany hnone
    have hins : insertOrg db new_id (newOrgRec owner orgName priv0) =
        some { db with orgs := db.orgs ++ [(new_id, newOrgRec owner orgName priv0)] } := by
      simp only [insertOrg, newOrgRec]
      rw [if_neg (by simp [hany])]
    have hfu : findUser { db with orgs := db.orgs ++ [(new_id, newOrgRec owner orgName priv0)] } owner = none := hnone
    have hpush : pushUserOrg { db with orgs := db.orgs ++ [(new_id, newOrgRec owner orgName priv0)] } owner new_id =
        ({ db with orgs := db.orgs ++ [(new_id, newOrgRec owner orgName priv0)] }, 0) := by
      simp only [pushUserOrg, hfu]
      simp
    have hkeys : ∀ p ∈ db.orgs, (p.1 == new_id) = false := by
      rw [List.any_eq_false] at hany
      intro p hp
      have := hany p hp
      simp only [Bool.or_eq_true, not_or] at this
      simpa using this.1
    have hres : create_organization db owner orgName priv0 new_id =
        { result := OpResult.fail { status_code := 400, detail := "Error: Unable to update user" },
          db := db, sessionLeaked := false } := by
      simp only [create_organization, hv, Bool.not_true, Bool.false_eq_true, if_false]
      simp only [runTransaction, mkOutcome, hins, hpush]
      simp
    rw [hres]
    refine ⟨rfl, rfl, ?_⟩
    exact assocFind_eq_none db.orgs new_id hkeys
  · intro hname
    have hany : db.orgs.any
        (fun p => p.1 == new_id || p.2.name == (newOrgRec owner orgName priv0).name) = true := by
      rw [List.any_eq_true] at hname ⊢
      obtain ⟨p, hp, hn⟩ := hname
      refine ⟨p, hp, ?_⟩
      simp only [newOrgRec] at hn ⊢
      simp at hn
      simp [hn]
    have hins : insertOrg db new_id (newOrgRec owner orgName priv0) = none := by
      simp only [insertOrg]
      rw [if_pos hany]
    have hres : create_organization db owner orgName priv0 new_id =
        { result := OpResult.fail { status_code := 400, detail := "Error: Organization already exists with this name." },
          db := db, sessionLeaked := false } := by
      simp only [create_organization, hv, Bool.not_true, Bool.false_eq_true, if_false]
      simp only [runTransaction, mkOutcome, hins]
    rw [hres]
    exact ⟨rfl, rfl, rfl⟩

theorem create_organization_abort_paths_witness :
    (create_organization dbEx uB "Acme" false nId).result =
      OpResult.fail { status_code := 400, detail := "Error: Organization already exists with this name." } ∧
    (create_organization dbEx uB "Acme" false nId).db = dbEx ∧
    (create_organization (⟨[], [], []⟩ : DB) uB "Beta" false nId).result =
      OpResult.fail { status_code := 400, detail := "Error: Unable to update user" } ∧
    (create_organization (⟨[], [], []⟩ : DB) uB "Beta" false nId).db = (⟨[], [], []⟩ : DB) := by
  have h2 := (create_organization_abort_paths dbEx uB "Acme" nId false (by decide)).2 (by decide)
  have h1 := (create_organization_abort_paths (⟨[], [], []⟩ : DB) uB "Beta" nId false (by decide)).1 (by decide) (by decide)
  exact ⟨h2.1, h2.2.1, h1.1, h1.2.1⟩

/-! ## C2: create_organization success shape -/

/-- C2: a successful create_organization returns an organization whose
admins and members are both exactly the singleton owner and whose
created_by is the owner; the stored document under the new id is that
organization, and the owner's user document now lists the new id in its
organizations. -/
theorem create_organization_success_shape
    (db : DB) (owner orgName new_id : String) (priv0 : Bool) (org : OrgRec)
    (hok : (create_organization db owner orgName priv0 new_id).result = OpResult.ok org) :
    org.admins = [owner] ∧ org.members = [owner] ∧ org.created_by = owner ∧
    findOrg (create_organization db owner orgName priv0 new_id).db new_id = some org ∧
    ∃ l, findUser (create_organization db owner orgName priv0 new_id).db owner = some l ∧
      new_id ∈ l := by
  by_cases hv : isValidObjectId owner = true
  case neg =>
    exfalso
    have : (create_organization db owner orgName priv0 new_id).result = OpResult.fail validationError := by
      simp only [create_organization]
      rw [if_pos (by simp [hv])]
    rw [this] at hok
    exact OpResult.noConfusion hok
  case pos =>
  by_cases hany : db.orgs.any (fun p => p.1 == new_id || p.2.name == (newOrgRec owner orgName priv0).name) = true
  case pos =>
    exfalso
    have hins : insertOrg db new_id (newOrgRec owner orgName priv0) = none := by
      simp only [insertOrg]
      rw [if_pos hany]
    have : (create_organization db owner orgName priv0 new_id).result =
        OpResult.fail { status_code := 400, detail := "Error: Organization already exists with this name." } := by
      simp only [create_organization, hv, Bool.not_true, Bool.false_eq_true, if_false]
      simp only [runTransaction, mkOutcome, hins]
    rw [this] at hok
    exact OpResult.noConfusion hok
  case neg =>
  have hanyf : db.orgs.any (fun p => p.1 == new_id || p.2.name == (newOrgRec owner orgName priv0).name) = false := by
    revert hany
    cases db.orgs.any (fun p => p.1 == new_id || p.2.name == (newOrgRec owner orgName priv0).name) <;> simp
  have hins : insertOrg db new_id (newOrgRec owner orgName priv0) =
      some { db with orgs := db.orgs ++ [(new_id, newOrgRec owner orgName priv0)] } := by
    simp only [insertOrg]
    rw [if_neg (by simp [hanyf])]
  by_cases hfu : findUser db owner = none
  case pos =>
    exfalso
    have hfu2 : findUser { db with orgs := db.orgs ++ [(new_id, newOrgRec owner orgName priv0)] } owner = none := hfu
    have hpush : pushUserOrg { db with orgs := db.orgs ++ [(new_id, newOrgRec owner orgName priv0)] } owner new_id =
        ({ db with orgs := db.orgs ++ [(new_id, newOrgRec owner orgName priv0)] }, 0) := by
      simp only [pushUserOrg, hfu2]
      simp
    have : (create_organization db owner orgName priv0 new_id).result =
        OpResult.fail { status_code := 400, detail := "Error: Unable to update user" } := by
      simp only [create_organization, hv, Bool.not_true, Bool.false_eq_true, if_false]
      simp only [runTransaction, mkOutcome, hins, hpush]
      simp
    rw [this] at hok
    exact OpResult.noConfusion hok
  case neg =>
  obtain ⟨l, hl⟩ : ∃ l, findUser db owner = some l := by
    cases h : findUser db owner with
    | none => exact absurd h hfu
    | some l => exact ⟨l, rfl⟩
  have hfu1 : findUser { db with orgs := db.orgs ++ [(new_id, newOrgRec owner orgName priv0)] } owner = some l := hl
  have hpush : pushUserOrg { db with orgs := db.orgs ++ [(new_id, newOrgRec owner orgName priv0)] } owner new_id =
      ({ db with
          orgs := db.orgs ++ [(new_id, newOrgRec owner orgName priv0)],
          users := assocUpdate db.users owner (fun x => x ++ [new_id]) }, 1) := by
    simp only [pushUserOrg, hfu1]
    simp
  have hres : create_organization db owner orgName priv0 new_id =
      { result := OpResult.ok (newOrgRec owner orgName priv0),
        db := { db with
          orgs := db.orgs ++ [(new_id, newOrgRec owner orgName priv0)],
          users := assocUpdate db.users owner (fun x => x ++ [new_id]) },
        sessionLeaked := false } := by
    simp only [create_organization, hv, Bool.not_true, Bool.false_eq_true, if_false]
    simp only [runTransaction, mkOutcome, hins, hpush]
    simp
  rw [hres] at hok ⊢
  have horg : org = newOrgRec owner orgName priv0 := by
    cases hok
    rfl
  subst horg
  have hkeys : ∀ p ∈ db.orgs, (p.1 == new_id) = false := by
    rw [List.any_eq_false] at hanyf
    intro p hp
    have := hanyf p hp
    simp only [Bool.or_eq_true, not_or] at this
    simpa using this.1
  refine ⟨rfl, rfl, rfl, ?_, ?_⟩
  · exact assocFind_append_single db.orgs new_id _ hkeys
  · refine ⟨l ++ [new_id], ?_, by simp⟩
    show assocFind (assocUpdate db.users owner (fun x => x ++ [new_id])) owner = some (l ++ [new_id])
    rw [assocFind_update_self]
    rw [show assocFind db.users owner = some l from hl]
    rfl

theorem create_organization_success_shape_witness :
    (create_organization dbEx uB "Beta" false nId).result = OpResult.ok (newOrgRec uB "Beta" false) ∧
    (newOrgRec uB "Beta" false).admins = [uB] ∧ (newOrgRec uB "Beta" false).members = [uB] ∧
    findOrg (create_organization dbEx uB "Beta" false nId).db nId = some (newOrgRec uB "Beta" false) := by
  have h := create_organization_success_shape dbEx uB "Beta" nId false
    (newOrgRec uB "Beta" false) (by decide)
  exact ⟨by decide, h.1, h.2.1, h.2.2.2.1⟩

/-! ## C4: is_authorized_user -/

/-- The combined find_one query of is_authorized_user hits iff the
organization with the queried id exists and lists the user among its admins
(organization ids are unique: `_id` is the primary key). -/
theorem find_admin_isSome_iff (l : List (String × OrgRec)) (o u : String)
    (hnd : (l.map Prod.fst).Nodup) :
    (l.find? (fun p => p.1 == o && p.2.admins.contains u)).isSome = true ↔
      ∃ org, assocFind l o = some org ∧ org.admins.contains u = true := by
  induction l with
  | nil => simp [assocFind]
  | cons hd tl ih =>
    have hnd2 : hd.1 ∉ tl.map Prod.fst ∧ (tl.map Prod.fst).Nodup := by
      rw [List.map_cons, List.nodup_cons] at hnd
      exact hnd
    cases hk : (hd.1 == o) with
    | true =>
      have hkeq : hd.1 = o := by simpa using hk
      have htl : ∀ p ∈ tl, ¬((p.1 == o) = true) := by
        intro p hp hpo
        apply hnd2.1
        rw [hkeq]
        have hpe : p.1 = o := by simpa using hpo
        rw [← hpe]
        exact List.mem_map_of_mem Prod.fst hp
      cases ha : hd.2.admins.contains u with
      | true =>
        apply iff_of_true
        · have ha2 : u ∈ hd.2.admins := by simpa using ha
          rw [List.find?_cons]
          simp [hk, ha2]
        · refine ⟨hd.2, ?_, ha⟩
          simp [assocFind, List.find?_cons, hk]
      | false =>
        apply iff_of_false
        · rw [List.find?_cons]
          simp only [hk, ha, Bool.and_false]
          have ha2 : u ∉ hd.2.admins := by simpa using ha
          simp [ha2]
          intro x y hmem hxo
          exact fun hu => (htl (x, y) hmem (by simp [hxo])).elim
        · rintro ⟨org, horg, hadm⟩
          have : org = hd.2 := by
            simp [assocFind, List.find?_cons, hk] at horg
            exact horg.symm
          rw [this] at hadm
          rw [ha] at hadm
          exact Bool.false_ne_true hadm
    | false =>
      have hgoal : (List.find? (fun p => p.1 == o && p.2.admins.contains u) (hd :: tl)).isSome =
          (List.find? (fun p => p.1 == o && p.2.admins.contains u) tl).isSome := by
        rw [List.find?_cons]
        simp [hk]
      have hright : assocFind (hd :: tl) o = assocFind tl o := by
        simp [assocFind, List.find?_cons, hk]
      rw [hgoal, hright]
      exact ih hnd2.2

/-- C4: is_authorized_user succeeds exactly when the organization exists and
the user is among its admins; every other case, a missing organization
included, raises the 401 "Unauthorized user." failure, which differs from
the 404 not-found failure raised elsewhere (add_member). -/
theorem is_authorized_user_admin_iff
    (db : DB) (o u : String)
    (hvo : isValidObjectId o = true) (hvu : isValidObjectId u = true)
    (hnd : (db.orgs.map Prod.fst).Nodup) :
    (is_authorized_user db o u = OpResult.ok () ↔
      ∃ org, findOrg db o = some org ∧ org.admins.contains u = true) ∧
    ((¬ ∃ org, findOrg db o = some org ∧ org.admins.contains u = true) →
      is_authorized_user db o u =
        OpResult.fail { status_code := 401, detail := "Error: Unauthorized user." }) ∧
    ({ status_code := 401, detail := "Error: Unauthorized user." } : HTTPException) ≠
      { status_code := 404, detail := "Error: Organization not found." } := by
  have hvalid : (!(isValidObjectId o && isValidObjectId u)) = false := by
    simp [hvo, hvu]
  have hiff := find_admin_isSome_iff db.orgs o u hnd
  refine ⟨?_, ?_, by decide⟩
  · cases hfind : db.orgs.find? (fun p => p.1 == o && p.2.admins.contains u) with
    | some p =>
      have hok : is_authorized_user db o u = OpResult.ok () := by
        simp only [is_authorized_user, hvalid, Bool.false_eq_true, if_false, hfind]
      rw [hok]
      apply iff_of_true rfl
      exact hiff.mp (by rw [hfind]; rfl)
    | none =>
      have hfail : is_authorized_user db o u =
          OpResult.fail { status_code := 401, detail := "Error: Unauthorized user." } := by
        simp only [is_authorized_user, hvalid, Bool.false_eq_true, if_false, hfind]
      rw [hfail]
      apply iff_of_false (by intro h; exact OpResult.noConfusion h)
      intro hex
      have hsome := hiff.mpr hex
      rw [hfind] at hsome
      simp at hsome
  · intro hne
    cases hfind : db.orgs.find? (fun p => p.1 == o && p.2.admins.contains u) with
    | some p =>
      exfalso
      exact hne (hiff.mp (by rw [hfind]; rfl))
    | none =>
      simp only [is_authorized_user, hvalid, Bool.false_eq_true, if_false, hfind]

theorem is_authorized_user_admin_iff_witness :
    (is_authorized_user dbEx oA uA = OpResult.ok () ↔
      ∃ org, findOrg dbEx oA = some org ∧ org.admins.contains uA = true) ∧
    (is_authorized_user dbEx oA uA = OpResult.ok ()) := by
  have h := is_authorized_user_admin_iff dbEx oA uA (by decide) (by decide) (by decide)
  exact ⟨h.1, by decide⟩

/-! ## C3: add_member contract -/

theorem add_member_eq_notfound (db : DB) (u o : String)
    (hvu : isValidObjectId u = true) (hvo : isValidObjectId o = true)
    (h : findOrg db o = none) :
    add_member db u o =
      { result := OpResult.fail { status_code := 404, detail := "Error: Organization not found." },
        db := db, sessionLeaked := false } := by
  simp only [add_member, hvo, hvu, Bool.and_self, Bool.not_true, Bool.false_eq_true, if_false]
  simp only [runTransaction, mkOutcome, h]

theorem add_member_eq_conflict (db : DB) (u o : String) (org : OrgRec)
    (hvu : isValidObjectId u = true) (hvo : isValidObjectId o = true)
    (h : findOrg db o = some org) (hm : org.members.contains u = true) :
    add_member db u o =
      { result := OpResult.fail { status_code := 400, detail := "Error: User is already a member of the organization." },
        db := db, sessionLeaked := false } := by
  simp only [add_member, hvo, hvu, Bool.and_self, Bool.not_true, Bool.false_eq_true, if_false]
  simp only [runTransaction, mkOutcome, h, hm]
  simp

theorem add_member_eq_private (db : DB) (u o : String) (org : OrgRec)
    (hvu : isValidObjectId u = true) (hvo : isValidObjectId o = true)
    (h : findOrg db o = some org) (hm : org.members.contains u = false)
    (hp : org.priv = true) :
    add_member db u o =
      { result := OpResult.fail { status_code := 401, detail := "Error: Organization is private." },
        db := db, sessionLeaked := false } := by
  simp only [add_member, hvo, hvu, Bool.and_self, Bool.not_true, Bool.false_eq_true, if_false]
  simp only [runTransaction, mkOutcome, h, hm, hp]
  simp

theorem add_member_eq_pushfail (db : DB) (u o : String) (org : OrgRec)
    (hvu : isValidObjectId u = true) (hvo : isValidObjectId o = true)
    (h : findOrg db o = some org) (hm : org.members.contains u = false)
    (hp : org.priv = false) (hu : findUser db u = none) :
    add_member db u o =
      { result := OpResult.fail { status_code := 400, detail := "Error: Unable to update user." },
        db := db, sessionLeaked := false } := by
  have hpush1 : pushOrgMember db o u =
      ({ db with orgs := (assocUpdate db.orgs o (fun x => { x with members := x.members ++ [u] })) }, 1) := by
    simp only [pushOrgMember, h]
    simp
  have hu1 : findUser { db with orgs := (assocUpdate db.orgs o (fun x => { x with members := x.members ++ [u] })) } u = none := hu
  have hpush2 : pushUserOrg { db with orgs := (assocUpdate db.orgs o (fun x => { x with members := x.members ++ [u] })) } u o =
      ({ db with orgs := (assocUpdate db.orgs o (fun x => { x with members := x.members ++ [u] })) }, 0) := by
    simp only [pushUserOrg, hu1]
    simp
  simp only [add_member, hvo, hvu, Bool.and_self, Bool.not_true, Bool.false_eq_true, if_false]
  simp only [runTransaction, mkOutcome, h, hm, hp, hpush1, hpush2]
  simp

theorem add_member_eq_success (db : DB) (u o : String) (org : OrgRec) (l : List String)
    (hvu : isValidObjectId u = true) (hvo : isValidObjectId o = true)
    (h : findOrg db o = some org) (hm : org.members.contains u = false)
    (hp : org.priv = false) (hu : findUser db u = some l) :
    add_member db u o =
      { result := OpResult.ok (),
        db := { db with
          orgs := (assocUpdate db.orgs o (fun x => { x with members := x.members ++ [u] })),
          users := (assocUpdate db.users u (fun x => x ++ [o])) },
        sessionLeaked := false } := by
  have hpush1 : pushOrgMember db o u =
      ({ db with orgs := (assocUpdate db.orgs o (fun x => { x with members := x.members ++ [u] })) }, 1) := by
    simp only [pushOrgMember, h]
    simp
  have hu1 : findUser { db with orgs := (assocUpdate db.orgs o (fun x => { x with members := x.members ++ [u] })) } u = some l := hu
  have hpush2 : pushUserOrg { db with orgs := (assocUpdate db.orgs o (fun x => { x with members := x.members ++ [u] })) } u o =
      ({ db with
          orgs := (assocUpdate db.orgs o (fun x => { x with members := x.members ++ [u] })),
          users := (assocUpdate db.users u (fun x => x ++ [o])) }, 1) := by
    simp only [pushUserOrg, hu1]
    simp
  simp only [add_member, hvo, hvu, Bool.and_self, Bool.not_true, Bool.false_eq_true, if_false]
  simp only [runTransaction, mkOutcome, h, hm, hp, hpush1, hpush2]
  simp
/-- C3: add_member checks, in one transaction and in this order: missing
organization (404), already a member (400 conflict), private organization
(401); a private organization therefore rejects every call; on success both
the organization's members and the user's organizations are updated
together, a partial update (the user document absent) aborts the whole
transaction, and a second identical call fails with the conflict failure. -/
theorem add_member_contract
    (db : DB) (u o : String)
    (hvu : isValidObjectId u = true) (hvo : isValidObjectId o = true) :
    (findOrg db o = none →
      (add_member db u o).result = OpResult.fail { status_code := 404, detail := "Error: Organization not found." } ∧
      (add_member db u o).db = db) ∧
    (∀ org, findOrg db o = some org → org.members.contains u = true →
      (add_member db u o).result = OpResult.fail { status_code := 400, detail := "Error: User is already a member of the organization." } ∧
      (add_member db u o).db = db) ∧
    (∀ org, findOrg db o = some org → org.members.contains u = false → org.priv = true →
      (add_member db u o).result = OpResult.fail { status_code := 401, detail := "Error: Organization is private." } ∧
      (add_member db u o).db = db) ∧
    (∀ org, findOrg db o = some org → org.priv = true →
      (add_member db u o).result.isOk = false) ∧
    (findUser db u = none →
      (add_member db u o).result.isOk = false ∧ (add_member db u o).db = db) ∧
    (∀ org l, findOrg db o = some org → org.members.contains u = false → org.priv = false →
      findUser db u = some l →
      (add_member db u o).result = OpResult.ok () ∧
      findOrg (add_member db u o).db o = some { org with members := org.members ++ [u] } ∧
      findUser (add_member db u o).db u = some (l ++ [o]) ∧
      (add_member (add_member db u o).db u o).result = OpResult.fail { status_code := 400, detail := "Error: User is already a member of the organization." }) := by
  refine ⟨?_, ?_, ?_, ?_, ?_, ?_⟩
  · intro h
    rw [add_member_eq_notfound db u o hvu hvo h]
    exact ⟨rfl, rfl⟩
  · intro org h hm
    rw [add_member_eq_conflict db u o org hvu hvo h hm]
    exact ⟨rfl, rfl⟩
  · intro org h hm hp
    rw [add_member_eq_private db u o org hvu hvo h hm hp]
    exact ⟨rfl, rfl⟩
  · intro org h hp
    cases hm : org.members.contains u with
    | true =>
      rw [add_member_eq_conflict db u o org hvu hvo h hm]
      rfl
    | false =>
      rw [add_member_eq_private db u o org hvu hvo h hm hp]
      rfl
  · intro hu
    cases h : findOrg db o with
    | none =>
      rw [add_member_eq_notfound db u o hvu hvo h]
      exact ⟨rfl, rfl⟩
    | some org =>
      cases hm : org.members.contains u with
      | true =>
        rw [add_member_eq_conflict db u o org hvu hvo h hm]
        exact ⟨rfl, rfl⟩
      | false =>
        cases hp : org.priv with
        | true =>
          rw [add_member_eq_private db u o org hvu hvo h hm hp]
          exact ⟨rfl, rfl⟩
        | false =>
          rw [add_member_eq_pushfail db u o org hvu hvo h hm hp hu]
          exact ⟨rfl, rfl⟩
  · intro org l h hm hp hu
    rw [add_member_eq_success db u o org l hvu hvo h hm hp hu]
    have hfo : findOrg { db with
        orgs := (assocUpdate db.orgs o (fun x => { x with members := x.members ++ [u] })),
        users := (assocUpdate db.users u (fun x => x ++ [o])) } o =
        some { org with members := org.members ++ [u] } := by
      show assocFind (assocUpdate db.orgs o (fun x => { x with members := x.members ++ [u] })) o =
        some { org with members := org.members ++ [u] }
      rw [assocFind_update_self]
      rw [show assocFind db.orgs o = some org from h]
      rfl
    have hfu : findUser { db with
        orgs := (assocUpdate db.orgs o (fun x => { x with members := x.members ++ [u] })),
        users := (assocUpdate db.users u (fun x => x ++ [o])) } u = some (l ++ [o]) := by
      show assocFind (assocUpdate db.users u (fun x => x ++ [o])) u = some (l ++ [o])
      rw [assocFind_update_self]
      rw [show assocFind db.users u = some l from hu]
      rfl
    refine ⟨rfl, hfo, hfu, ?_⟩
    have hm2 : ({ org with members := org.members ++ [u] } : OrgRec).members.contains u = true := by
      simp
    rw [add_member_eq_conflict _ u o { org with members := org.members ++ [u] } hvu hvo hfo hm2]

theorem add_member_contract_witness :
    findOrg dbEx oA = some orgA ∧
    (add_member dbEx uB oA).result = OpResult.ok () ∧
    (add_member (add_member dbEx uB oA).db uB oA).result =
      OpResult.fail { status_code := 400, detail := "Error: User is already a member of the organization." } := by
  have h := (add_member_contract dbEx uB oA (by decide) (by decide)).2.2.2.2.2
    orgA [] (by decide) (by decide) (by decide) (by decide)
  exact ⟨by decide, h.1, h.2.2.2⟩

/-! ## C7: which routes trigger resource-level authorization -/

/-- C7 (counterexample): POST "/organizations/opportunities" is not of the
shape "/organizations/:id/opportunities" the claim states, yet
check_authorization performs the organization-admin delegation on it (with
"opportunities" as the organization id): the source tests only
startswith/endswith. -/
theorem check_authorization_shape_counterexample :
    specOpportunityShape "/organizations/opportunities" "POST" = false ∧
    (check_authorization dbEx true (some uA) "/organizations/opportunities" "POST").2 =
      [ResourceCheck.orgAdmin "opportunities"] := by decide

theorem g1_imp_not_g2 (request_path request_method : String)
    (hg1 : ((request_method == "POST" && request_path == "/organizations") ||
      (request_path == "/ws" && request_method == "GET")) = true) :
    (request_method == "POST" && (pyStartsWith request_path "/organizations" &&
      pyEndsWith request_path "/opportunities")) = false := by
  rw [Bool.or_eq_true] at hg1
  cases hg1 with
  | inl h =>
    have hpath : request_path = "/organizations" := by
      rw [Bool.and_eq_true] at h
      simpa using h.2
    subst hpath
    have hend : pyEndsWith "/organizations" "/opportunities" = false := by decide
    simp [hend]
  | inr h =>
    have hpath : request_path = "/ws" := by
      rw [Bool.and_eq_true] at h
      simpa using h.1
    subst hpath
    have hstart : pyStartsWith "/ws" "/organizations" = false := by decide
    simp [hstart]
/-- C7 (amended): for requests outside the exempt allow-list, a missing
user is always rejected with "please login"; the activated-user delegation
happens exactly for (POST, /organizations) and (GET, /ws); the
organization-admin delegation happens exactly for POST requests whose path
starts with "/organizations" and ends with "/opportunities" (a superset of
the /organizations/:id/opportunities shape), on the path's third
"/"-separated segment; every other request passes with no resource-level
check. -/
theorem check_authorization_routes
    (db : DB) (activated : Bool) (cu request_path request_method : String)
    (hne : is_unauthorized_endpoint request_path request_method = false) :
    ((check_authorization db activated none request_path request_method).1 =
      AuthResult.denied "Please login to access this resource.") ∧
    (ResourceCheck.activatedUser ∈
        (check_authorization db activated (some cu) request_path request_method).2 ↔
      ((request_method == "POST" && request_path == "/organizations") ||
       (request_path == "/ws" && request_method == "GET")) = true) ∧
    ((∃ i, ResourceCheck.orgAdmin i ∈
        (check_authorization db activated (some cu) request_path request_method).2) ↔
      (request_method == "POST" && (pyStartsWith request_path "/organizations" &&
        pyEndsWith request_path "/opportunities")) = true) ∧
    (∀ i, ResourceCheck.orgAdmin i ∈
        (check_authorization db activated (some cu) request_path request_method).2 →
      i = (pySplit '/' request_path).getD 2 "") ∧
    ((check_authorization db activated (some cu) request_path request_method).2 = [] →
      (check_authorization db activated (some cu) request_path request_method).1 =
        AuthResult.passed) := by
  refine ⟨by simp [check_authorization, hne], ?_⟩
  cases hg1 : ((request_method == "POST" && request_path == "/organizations") ||
      (request_path == "/ws" && request_method == "GET")) with
  | true =>
    have hg2 := g1_imp_not_g2 request_path request_method hg1
    cases hact : activated with
    | false =>
      have hres : check_authorization db false (some cu) request_path request_method =
          (AuthResult.denied "User is not authorized to access this resource, please activate your account.",
           [ResourceCheck.activatedUser]) := by
        simp [check_authorization, hne, hg1]
      rw [hres]
      refine ⟨by simp [hg1], by simp [hg2], by simp, by simp⟩
    | true =>
      have hres : check_authorization db true (some cu) request_path request_method =
          (AuthResult.passed, [ResourceCheck.activatedUser]) := by
        simp [check_authorization, hne, hg1, check_authorization.afterActivated, hg2]
      rw [hres]
      refine ⟨by simp [hg1], by simp [hg2], by simp, by simp⟩
  | false =>
    cases hg2 : (request_method == "POST" && (pyStartsWith request_path "/organizations" &&
        pyEndsWith request_path "/opportunities")) with
    | true =>
      have hsnd : ∀ (b : Bool) (x y : AuthResult) (t : List ResourceCheck),
          (if b = true then (x, t) else (y, t)).2 = t := by
        intro b x y t
        cases b <;> simp
      have htrace : (check_authorization db activated (some cu) request_path request_method).2 =
          [ResourceCheck.orgAdmin ((pySplit '/' request_path).getD 2 "")] := by
        simp only [check_authorization, hne, Bool.false_eq_true, if_false, hg1,
          check_authorization.afterActivated, hg2, if_true, List.nil_append]
        exact hsnd _ _ _ _
      refine ⟨?_, ?_, ?_, ?_⟩
      · rw [htrace]
        simp [hg1]
      · rw [htrace]
        simp [hg2]
      · rw [htrace]
        intro i hi
        rw [List.mem_singleton] at hi
        injection hi
      · rw [htrace]
        intro hcontra
        exact absurd hcontra (by simp)
    | false =>
      have hres : check_authorization db activated (some cu) request_path request_method =
          (AuthResult.passed, []) := by
        simp [check_authorization, hne, hg1, check_authorization.afterActivated, hg2]
      rw [hres]
      refine ⟨by simp [hg1], by simp [hg2], by simp, by simp⟩

theorem check_authorization_routes_witness :
    is_unauthorized_endpoint "/profile" "GET" = false ∧
    (ResourceCheck.activatedUser ∈
        (check_authorization dbEx true (some uA) "/profile" "GET").2 ↔
      (("GET" == "POST" && "/profile" == "/organizations") ||
       ("/profile" == "/ws" && "GET" == "GET")) = true) ∧
    ((check_authorization dbEx true (some uA) "/profile" "GET").2 = [] →
      (check_authorization dbEx true (some uA) "/profile" "GET").1 = AuthResult.passed) := by
  have h := check_authorization_routes dbEx true uA "/profile" "GET" (by decide)
  exact ⟨by decide, h.2.1, h.2.2.2.2⟩

end OptySys
